import Mathlib

/- Formal model of `prompt_constructor.py` (SyntheaPromptGenerator).

The six pandas DataFrames become lists of typed records; parsed datetime
values become a calendar `Date` with a lexicographic order (mirroring the
comparison order on parsed timestamps); pandas NaN / missing optional
fields become `Option`.  Exceptions propagating out of the Python code are
modelled with `Except DataError`: a `FileNotFoundError` escaping
`load_data` is the spec's `MissingSourceError`, and the `IndexError`
raised by `.iloc[0]` on an empty selection (an unresolvable patient or
encounter id) is the spec's `NotFoundError`.  CSV parsing itself is out of
scope per the spec; a source directory is therefore a record of six
optional, already-parsed tables, `none` meaning the file is absent. -/

namespace Synthea

/-- A parsed calendar date (the date part of a parsed timestamp). -/
structure Date where
  year : Nat
  month : Nat
  day : Nat
deriving DecidableEq

/-- Boolean comparison on dates, mirroring `<=` on parsed timestamps
(lexicographic on year, month, day). -/
def Date.ble (a b : Date) : Bool :=
  decide (a.year < b.year) ||
    (decide (a.year = b.year) &&
      (decide (a.month < b.month) ||
        (decide (a.month = b.month) && decide (a.day ≤ b.day))))

/-- The order on dates, as a proposition. -/
def Date.le (a b : Date) : Prop :=
  a.year < b.year ∨
    (a.year = b.year ∧ (a.month < b.month ∨ (a.month = b.month ∧ a.day ≤ b.day)))

/-- `n` rendered in decimal, left-padded with zeros to width `w`
(per-field behaviour of `strftime`). -/
def padZeros (w : Nat) (n : Nat) : String :=
  let s := toString n
  if s.length < w then String.mk (List.replicate (w - s.length) '0') ++ s else s

/-- `d.strftime(\x27%Y-%m-%d\x27)`. -/
def Date.strftimeYmd (d : Date) : String :=
  padZeros 4 d.year ++ "-" ++ padZeros 2 d.month ++ "-" ++ padZeros 2 d.day

/-- A row of `patients.csv` (the fields the program reads). -/
structure Patient where
  Id : String
  BIRTHDATE : Date
  DEATHDATE : Option Date
  GENDER : String
  RACE : String
  ETHNICITY : String
deriving DecidableEq

/-- A row of `encounters.csv` (the fields the program reads). -/
structure Encounter where
  Id : String
  PATIENT : String
  START : Date
  STOP : Option Date
  DESCRIPTION : String
  REASONDESCRIPTION : Option String
deriving DecidableEq

/-- A row of `conditions.csv` (the fields the program reads). -/
structure Condition where
  PATIENT : String
  START : Date
  STOP : Option Date
  DESCRIPTION : String
deriving DecidableEq

/-- A row of `medications.csv` (the fields the program reads). -/
structure Medication where
  PATIENT : String
  START : Date
  STOP : Option Date
  DESCRIPTION : String
deriving DecidableEq

/-- A row of `careplans.csv` (the fields the program reads). -/
structure CarePlan where
  PATIENT : String
  ENCOUNTER : String
  START : Date
  STOP : Option Date
  DESCRIPTION : String
deriving DecidableEq

/-- A row of `observations.csv` (the fields the program reads). -/
structure Observation where
  PATIENT : String
  ENCOUNTER : String
  DATE : Date
  DESCRIPTION : String
  VALUE : String
  UNITS : Option String
deriving DecidableEq

/-- Failure modes of the program, in the spec's taxonomy:
`MissingSourceError` models the `FileNotFoundError` escaping `load_data`,
`NotFoundError` the `IndexError` from `.iloc[0]` on an empty selection. -/
inductive DataError where
  | MissingSourceError
  | NotFoundError
deriving DecidableEq

/-- The data store: the six tables held by `SyntheaPromptGenerator`,
in the order they are loaded. -/
structure SyntheaPromptGenerator where
  encounters : List Encounter
  conditions : List Condition
  medications : List Medication
  patients : List Patient
  careplans : List CarePlan
  observations : List Observation
deriving DecidableEq

/-- A source directory: each of the six table files is either present
(already parsed, since ingestion is an external collaborator) or absent. -/
structure SourceDir where
  encounters_csv : Option (List Encounter)
  conditions_csv : Option (List Condition)
  medications_csv : Option (List Medication)
  patients_csv : Option (List Patient)
  careplans_csv : Option (List CarePlan)
  observations_csv : Option (List Observation)
deriving DecidableEq

/-- `pd.read_csv` on an optional file: an absent file is the
`FileNotFoundError` that `load_data` re-raises (`MissingSourceError`). -/
def read_csv {α : Type} (file : Option α) : Except DataError α :=
  match file with
  | none => Except.error DataError.MissingSourceError
  | some table => Except.ok table

/-- `load_data`: reads the six CSV files in program order; any absent file
aborts the load (the caught `FileNotFoundError` is re-raised), so no store
is produced. -/
def load_data (dir : SourceDir) : Except DataError SyntheaPromptGenerator := do
  let encounters ← read_csv dir.encounters_csv
  let conditions ← read_csv dir.conditions_csv
  let medications ← read_csv dir.medications_csv
  let patients ← read_csv dir.patients_csv
  let careplans ← read_csv dir.careplans_csv
  let observations ← read_csv dir.observations_csv
  pure { encounters := encounters, conditions := conditions,
         medications := medications, patients := patients,
         careplans := careplans, observations := observations }

/-- `.iloc[0]` on a filtered selection: the first row, or an `IndexError`
(`NotFoundError`) when the selection is empty. -/
def iloc0 {α : Type} (rows : List α) : Except DataError α :=
  match rows with
  | [] => Except.error DataError.NotFoundError
  | row :: _ => Except.ok row

/-- The demographics dict built by `get_patient_history`. -/
structure Demographics where
  age : Int
  gender : String
  race : String
  ethnicity : String
deriving DecidableEq

/-- The history dict returned by `get_patient_history`. -/
structure PatientHistory where
  demographics : Demographics
  observations : List String
  conditions : List String
  medications : List String
  careplans : List String
  encounters : List String
deriving DecidableEq

/-- `_process_observations`: the loop appending one rendered line per row
(`f-string` with the empty string where `UNITS` is NaN). -/
def _process_observations (observations : List Observation) : List String :=
  observations.foldl
    (fun obs row =>
      obs ++ [row.DESCRIPTION ++ ": " ++ row.VALUE ++ " " ++
        (match row.UNITS with
         | none => ""
         | some u => u)])
    []

/-- `_format_list`. -/
def _format_list (title : String) (items : List String) : String :=
  if items.isEmpty then title ++ "None"
  else title ++ String.intercalate "\n" (items.map (fun item => "- " ++ item))

/-- `_format_dict`. -/
def _format_dict (data : List (String × String)) : String :=
  String.intercalate "\n" (data.map (fun kv => "- " ++ kv.fst ++ ": " ++ kv.snd))

/-- The demographics dict in its insertion order of keys, with each value
rendered the way the f-strings render it (`age` via `str`). -/
def demographicPairs (d : Demographics) : List (String × String) :=
  [("age", toString d.age), ("gender", d.gender), ("race", d.race),
   ("ethnicity", d.ethnicity)]

/-- `get_patient_history`: patient lookup, per-patient filters with no
time window, encounter lookup, per-encounter observations. -/
def get_patient_history (g : SyntheaPromptGenerator)
    (patient_id : String) (encounter_id : String) :
    Except DataError PatientHistory := do
  let patient ← iloc0 (g.patients.filter (fun p => p.Id == patient_id))
  let patient_conditions := g.conditions.filter (fun c => c.PATIENT == patient_id)
  let patient_medications := g.medications.filter (fun m => m.PATIENT == patient_id)
  let patient_encounters := g.encounters.filter (fun e => e.PATIENT == patient_id)
  let patient_careplans := g.careplans.filter (fun c => c.PATIENT == patient_id)
  let encounter ← iloc0 (g.encounters.filter (fun e => e.Id == encounter_id))
  let observations := g.observations.filter
    (fun o => o.PATIENT == patient_id && o.ENCOUNTER == encounter_id)
  pure
    { demographics :=
        { age := (encounter.START.year : Int) - (patient.BIRTHDATE.year : Int),
          gender := patient.GENDER,
          race := patient.RACE,
          ethnicity := patient.ETHNICITY },
      observations := _process_observations observations,
      conditions := patient_conditions.map (fun c => c.DESCRIPTION),
      medications := patient_medications.map (fun m => m.DESCRIPTION),
      careplans := patient_careplans.map (fun c => c.DESCRIPTION),
      encounters := patient_encounters.map (fun e => e.DESCRIPTION) }

/-- `generate_chain_of_thought_prompt`. -/
def generate_chain_of_thought_prompt (g : SyntheaPromptGenerator)
    (encounter_id : String) : Except DataError String := do
  let encounter ← iloc0 (g.encounters.filter (fun e => e.Id == encounter_id))
  let history ← get_patient_history g encounter.PATIENT encounter_id
  pure
    ("Analyze this patient\x27s medical history step by step:\nPatient Information:\n- Age: "
      ++ toString history.demographics.age
      ++ "\n- Gender: " ++ history.demographics.gender
      ++ "\n- Race: " ++ history.demographics.race
      ++ "\n- Ethnicity: " ++ history.demographics.ethnicity
      ++ "\n\nMedical History:\n"
      ++ _format_list "Conditions\n" history.conditions
      ++ "\n" ++ _format_list "Current Medications\n" history.medications
      ++ "\n" ++ _format_list "Observations\n" history.observations
      ++ "\n\nReason through this case:\n1. What are the primary health concerns based on the conditions?\n2. How do these conditions interact with each other?\n3. Are the current medications appropriate for these conditions?\n4. What additional monitoring or interventions might be needed?\n5. What preventive measures should be considered?\n\nBased on this analysis, please provide:\n1. A prioritized list of health concerns\n2. Recommendations for medication adjustments\n3. Suggested monitoring plan\n4. Preventive care recommendations\n")

/-- `generate_tree_of_thoughts_prompt`. -/
def generate_tree_of_thoughts_prompt (g : SyntheaPromptGenerator)
    (encounter_id : String) : Except DataError String := do
  let encounter ← iloc0 (g.encounters.filter (fun e => e.Id == encounter_id))
  let history ← get_patient_history g encounter.PATIENT encounter_id
  pure
    ("Let\x27s analyze this patient\x27s case through multiple reasoning paths:\nPatient Profile:\n"
      ++ _format_dict (demographicPairs history.demographics)
      ++ "\n\nCurrent Medical Status:\n"
      ++ _format_list "Active Conditions\n" history.conditions
      ++ "\n" ++ _format_list "Current Medications\n" history.medications
      ++ "\n" ++ _format_list "Observations\n" history.observations
      ++ "\n\nPath A - Diagnostic Assessment:\n1. What patterns emerge from the current conditions?\n2. Are there potential underlying conditions?\n3. What are the risk factors for disease progression?\n\nPath B - Treatment Optimization:\n1. How effective is the current medication regimen?\n2. What are potential drug interactions?\n3. What alternative treatments could be considered?\n\nPath C - Preventive Planning:\n1. What are the modifiable risk factors?\n2. What preventive screenings are needed?\n3. What lifestyle modifications would be beneficial?\n\nSynthesize these paths to provide:\n1. Comprehensive health assessment\n2. Treatment recommendations\n3. Preventive care plan\n")

/-- The fixed exemplar block of the few-shot generator: the first
triple-quoted literal assigned to `prompt` (its `\n` escapes and the
trailing spaces of the wrapped Analysis lines preserved byte for byte). -/
def fewShotExemplar : String :=
  "Here is a similar medical case and its analysis:\n\nPatient Profile:\n- Age: 45\n- Gender: F\n- Race: Black\n- Ethnicity: Non-Hispanic\nConditions:\n- Housing instability (finding)\n- Financial insecurity (finding)\n- Social isolation (finding)\n- Stress (finding)\n- Hypertension (disorder)\n- Type 2 diabetes mellitus (disorder)\n- Depression (disorder)\n- Obesity (finding)\nCurrent Medications:\n- Metformin 500 mg oral tablet\n- Lisinopril 10 mg oral tablet\n- Sertraline 50 mg oral tablet\n\nAnalysis:\nThe patient presents with multiple socio-environmental challenges, including housing instability, \nfinancial insecurity, and social isolation, contributing to significant stress. These factors are \nlikely exacerbating her chronic conditions of hypertension, type 2 diabetes, and depression. The \npresence of obesity adds further risk for complications.\n\n"

/-- `generate_few_shot_prompt`: the exemplar literal, then the
target-case block appended by `+=`. -/
def generate_few_shot_prompt (g : SyntheaPromptGenerator)
    (encounter_id : String) : Except DataError String := do
  let encounter ← iloc0 (g.encounters.filter (fun e => e.Id == encounter_id))
  let target_history ← get_patient_history g encounter.PATIENT encounter_id
  pure
    ("Here is a similar medical case and its analysis:\n\nPatient Profile:\n- Age: 45\n- Gender: F\n- Race: Black\n- Ethnicity: Non-Hispanic\nConditions:\n- Housing instability (finding)\n- Financial insecurity (finding)\n- Social isolation (finding)\n- Stress (finding)\n- Hypertension (disorder)\n- Type 2 diabetes mellitus (disorder)\n- Depression (disorder)\n- Obesity (finding)\nCurrent Medications:\n- Metformin 500 mg oral tablet\n- Lisinopril 10 mg oral tablet\n- Sertraline 50 mg oral tablet\n\nAnalysis:\nThe patient presents with multiple socio-environmental challenges, including housing instability, \nfinancial insecurity, and social isolation, contributing to significant stress. These factors are \nlikely exacerbating her chronic conditions of hypertension, type 2 diabetes, and depression. The \npresence of obesity adds further risk for complications.\n\n"
      ++ ("Now analyze this new case:\nPatient Profile:\n"
        ++ _format_dict (demographicPairs target_history.demographics)
        ++ "\n" ++ _format_list "Conditions\n" target_history.conditions
        ++ "\n" ++ _format_list "Current Medications\n" target_history.medications
        ++ "\n" ++ _format_list "Observations\n" target_history.observations
        ++ "\n\nProvide a similar analysis for this case.\n"))

/-- The `encounter_conditions` selection of `generate_medical_note_prompt`:
conditions of the patient active at time `T` (the encounter start). -/
def encounter_conditions (g : SyntheaPromptGenerator)
    (patient_id : String) (T : Date) : List Condition :=
  g.conditions.filter
    (fun c => c.PATIENT == patient_id && Date.ble c.START T &&
      (match c.STOP with
       | none => true
       | some st => Date.ble T st))

/-- The `encounter_medications` selection of `generate_medical_note_prompt`:
medications of the patient active at time `T` (the encounter start). -/
def encounter_medications (g : SyntheaPromptGenerator)
    (patient_id : String) (T : Date) : List Medication :=
  g.medications.filter
    (fun m => m.PATIENT == patient_id && Date.ble m.START T &&
      (match m.STOP with
       | none => true
       | some st => Date.ble T st))

/-- The `ongoing_careplans` selection of `generate_medical_note_prompt`:
care plans of the patient active at time `T` (the encounter start). -/
def ongoing_careplans (g : SyntheaPromptGenerator)
    (patient_id : String) (T : Date) : List CarePlan :=
  g.careplans.filter
    (fun c => c.PATIENT == patient_id && Date.ble c.START T &&
      (match c.STOP with
       | none => true
       | some st => Date.ble T st))

/-- The `encounter_careplans` selection of `generate_medical_note_prompt`:
care plans of the patient whose encounter id equals this encounter. -/
def encounter_careplans (g : SyntheaPromptGenerator)
    (patient_id : String) (encounter_id : String) : List CarePlan :=
  g.careplans.filter
    (fun c => c.PATIENT == patient_id && c.ENCOUNTER == encounter_id)

/-- `generate_medical_note_prompt`. -/
def generate_medical_note_prompt (g : SyntheaPromptGenerator)
    (encounter_id : String) (language : String) : Except DataError String := do
  let encounter ← iloc0 (g.encounters.filter (fun e => e.Id == encounter_id))
  let patient_id := encounter.PATIENT
  let patient ← iloc0 (g.patients.filter (fun p => p.Id == patient_id))
  let conds := encounter_conditions g patient_id encounter.START
  let meds := encounter_medications g patient_id encounter.START
  let ongoing := ongoing_careplans g patient_id encounter.START
  let newcp := encounter_careplans g patient_id encounter_id
  let note :=
    "MEDICAL NOTE\nDate: " ++ Date.strftimeYmd encounter.START
      ++ "\nVisit Type: " ++ encounter.DESCRIPTION
      ++ "\n\nPATIENT DEMOGRAPHICS\nAge: "
      ++ toString ((encounter.START.year : Int) - (patient.BIRTHDATE.year : Int))
      ++ "\nGender: " ++ patient.GENDER
      ++ "\n\n" ++ "REASON FOR VISIT\n"
      ++ (match encounter.REASONDESCRIPTION with
          | none => "Not provided"
          | some r => r)
      ++ "\n\n" ++ "ACTIVE CONDITIONS\n"
      ++ _format_list "" (conds.map (fun c => c.DESCRIPTION))
      ++ "\n\nCURRENT MEDICATIONS\n"
      ++ _format_list "" (meds.map (fun m => m.DESCRIPTION))
      ++ "\n\nONGOING CAREPLANS\n"
      ++ _format_list "" (ongoing.map (fun c => c.DESCRIPTION))
      ++ "\n\nNEW CAREPLANS\n"
      ++ _format_list "" (newcp.map (fun c => c.DESCRIPTION))
      ++ "\n"
  pure
    ("Task: Simplify this medical note for the patient.\n\nOriginal Note:\n" ++ note
      ++ "\n\nPlease follow these guidelines for the simplified note:\n- Write the note in "
      ++ language
      ++ "\n- Tailor the note to their age\n- Use appropriate language for the audience\n- Maintain all important medical information\n- Explain medical terms when needed\n- Include any important instructions or follow-up steps\n")

/- Concrete demonstration data used by the closed witness theorems. -/

/-- Demo patient born 2000-12-31 (the literal boundary case of the spec). -/
def demoP1 : Patient :=
  ⟨"p1", ⟨2000, 12, 31⟩, none, "F", "white", "nonhispanic"⟩

/-- Second demo patient. -/
def demoP2 : Patient :=
  ⟨"p2", ⟨1980, 1, 1⟩, none, "M", "black", "hispanic"⟩

/-- Demo encounter of `p1` starting 2020-01-01, no reason description. -/
def demoE1 : Encounter :=
  ⟨"e1", "p1", ⟨2020, 1, 1⟩, none, "Checkup", none⟩

/-- Demo encounter of `p1` with a reason description. -/
def demoE2 : Encounter :=
  ⟨"e2", "p1", ⟨2021, 6, 15⟩, some ⟨2021, 6, 15⟩, "Visit", some "Flu"⟩

/-- Demo encounter that belongs to `p2`, not `p1`. -/
def demoE3 : Encounter :=
  ⟨"e3", "p2", ⟨2023, 3, 3⟩, none, "Emergency", none⟩

/-- Demo condition whose start equals the start of `demoE1`. -/
def demoC1 : Condition :=
  ⟨"p1", ⟨2020, 1, 1⟩, none, "Hypertension"⟩

/-- Demo condition whose stop equals the start of `demoE1`. -/
def demoC2 : Condition :=
  ⟨"p1", ⟨2019, 1, 1⟩, some ⟨2020, 1, 1⟩, "Flu"⟩

/-- Demo medication of `p1`. -/
def demoM1 : Medication :=
  ⟨"p1", ⟨2019, 5, 1⟩, none, "Aspirin"⟩

/-- Demo care plan of `p1` tied to `e1`. -/
def demoCP1 : CarePlan :=
  ⟨"p1", "e1", ⟨2020, 1, 1⟩, none, "Diet"⟩

/-- Demo observation of `p1` at `e1` with `UNITS` absent. -/
def demoO1 : Observation :=
  ⟨"p1", "e1", ⟨2020, 1, 1⟩, "Body Height", "170", none⟩

/-- A small fully loaded store over the demo rows. -/
def demoStore : SyntheaPromptGenerator :=
  ⟨[demoE1, demoE2, demoE3], [demoC1, demoC2], [demoM1], [demoP1, demoP2],
   [demoCP1], [demoO1]⟩

/- Shared helper lemmas. -/

/-- Binding a failed `Except` computation short-circuits. -/
lemma except_bind_error {α β : Type} (e : DataError) (f : α → Except DataError β) :
    (Except.error e : Except DataError α) >>= f = Except.error e := rfl

/-- Binding a successful `Except` computation applies the continuation. -/
lemma except_bind_ok {α β : Type} (a : α) (f : α → Except DataError β) :
    (Except.ok a : Except DataError α) >>= f = f a := rfl

/-- `pure` for `Except` is `Except.ok`. -/
lemma except_pure_eq {α : Type} (a : α) :
    (pure a : Except DataError α) = Except.ok a := rfl

/-- A fold that pushes one element per row equals the accumulator followed
by the mapped rows. -/
lemma foldl_push_eq_map {α β : Type} (f : α → β) (rows : List α) (acc : List β) :
    rows.foldl (fun done row => done ++ [f row]) acc = acc ++ rows.map f := by
  induction rows generalizing acc with
  | nil => simp
  | cons r rs ih => simp [ih]

/-- The boolean date comparison agrees with the date order. -/
lemma Date.ble_iff (a b : Date) : Date.ble a b = true ↔ Date.le a b := by
  simp [Date.ble, Date.le]

/-- The date order is reflexive. -/
lemma Date.le_refl (d : Date) : Date.le d d :=
  Or.inr ⟨rfl, Or.inr ⟨rfl, Nat.le_refl d.day⟩⟩

/-- The boolean guard on the optional stop date holds iff the stop is
absent or at least `T`. -/
lemma stop_guard_iff (T : Date) (stop : Option Date) :
    (match stop with
     | none => true
     | some st => Date.ble T st) = true ↔
      (stop = none ∨ ∃ st, stop = some st ∧ Date.le T st) := by
  cases stop with
  | none => simp
  | some st => simp [Date.ble_iff]

/- Claim theorems. -/

/-- C4: if any of the six required table files is absent from the source
directory, `load_data` fails with `MissingSourceError`, the error is
propagated to the caller, and no loaded store is produced. -/
theorem load_missing_source :
    ∀ dir : SourceDir,
      (dir.encounters_csv = none ∨ dir.conditions_csv = none ∨
        dir.medications_csv = none ∨ dir.patients_csv = none ∨
        dir.careplans_csv = none ∨ dir.observations_csv = none) →
      load_data dir = Except.error DataError.MissingSourceError ∧
        ∀ g : SyntheaPromptGenerator, load_data dir ≠ Except.ok g := by
  intro dir h
  obtain ⟨o1, o2, o3, o4, o5, o6⟩ := dir
  have key : load_data ⟨o1, o2, o3, o4, o5, o6⟩ =
      Except.error DataError.MissingSourceError := by
    rcases h with h | h | h | h | h | h <;> subst h
    · rfl
    · cases o1 <;> rfl
    · cases o1 <;> cases o2 <;> rfl
    · cases o1 <;> cases o2 <;> cases o3 <;> rfl
    · cases o1 <;> cases o2 <;> cases o3 <;> cases o4 <;> rfl
    · cases o1 <;> cases o2 <;> cases o3 <;> cases o4 <;> cases o5 <;> rfl
  refine ⟨key, fun g hg => ?_⟩
  rw [key] at hg
  exact Except.noConfusion hg

/-- Witness for C4: a directory whose `careplans.csv` is missing. -/
theorem load_missing_source_witness :
    load_data ⟨some [], some [], some [], some [], none, some []⟩ =
      Except.error DataError.MissingSourceError :=
  (load_missing_source ⟨some [], some [], some [], some [], none, some []⟩
    (Or.inr (Or.inr (Or.inr (Or.inr (Or.inl rfl)))))).1

/-- C6: every observation row is rendered as `description: value unit`
with the empty string (and hence a preserved trailing space) when the
unit is absent; in particular `Body Height`/`170` renders as
`"Body Height: 170 "` without a unit and `"Body Height: 170 cm"` with
unit `cm`. -/
theorem observation_rendering :
    (∀ observations : List Observation,
      _process_observations observations =
        observations.map (fun row =>
          row.DESCRIPTION ++ ": " ++ row.VALUE ++ " " ++ row.UNITS.getD "")) ∧
    _process_observations [⟨"p", "e", ⟨2020, 1, 1⟩, "Body Height", "170", none⟩] =
      ["Body Height: 170 "] ∧
    _process_observations [⟨"p", "e", ⟨2020, 1, 1⟩, "Body Height", "170", some "cm"⟩] =
      ["Body Height: 170 cm"] := by
  refine ⟨fun observations => ?_, rfl, rfl⟩
  rw [_process_observations, foldl_push_eq_map]
  rw [List.nil_append]
  apply List.map_congr_left
  intro row _
  cases h : row.UNITS <;> simp [h, Option.getD]

/-- C7: `_format_list` of an empty sequence is the title immediately
followed by `None`; of a non-empty sequence it is the title followed by
the items each prefixed by `- ` and joined by newlines, so that
`["a", "b"]` yields `title ++ "- a\n- b"`. -/
theorem format_list_spec :
    (∀ title : String, _format_list title [] = title ++ "None") ∧
    (∀ (title : String) (items : List String), items ≠ [] →
      _format_list title items =
        title ++ String.intercalate "\n" (items.map (fun item => "- " ++ item))) ∧
    (∀ title : String, _format_list title ["a", "b"] = title ++ "- a\n- b") := by
  refine ⟨fun title => rfl, fun title items h => ?_, fun title => rfl⟩
  cases items with
  | nil => exact absurd rfl h
  | cons a l => rfl

/-- Witness for C7: the non-empty case of `format_list_spec` at a
concrete title and item list. -/
theorem format_list_spec_witness :
    _format_list "Conditions\n" ["a", "b"] =
      "Conditions\n" ++
        String.intercalate "\n" (["a", "b"].map (fun item => "- " ++ item)) :=
  format_list_spec.2.1 "Conditions\n" ["a", "b"] (by decide)

/-- C1: an encounter id with no matching row in the encounters table makes
each of the four prompt generators fail with `NotFoundError` (the model of
the `IndexError` escaping `.iloc[0]`), and as the result is the bare error
no partial output is produced. -/
theorem generators_error_on_unknown_encounter :
    ∀ (g : SyntheaPromptGenerator) (encounter_id : String),
      (∀ e ∈ g.encounters, e.Id ≠ encounter_id) →
      generate_chain_of_thought_prompt g encounter_id =
        Except.error DataError.NotFoundError ∧
      generate_tree_of_thoughts_prompt g encounter_id =
        Except.error DataError.NotFoundError ∧
      generate_few_shot_prompt g encounter_id =
        Except.error DataError.NotFoundError ∧
      ∀ language : String,
        generate_medical_note_prompt g encounter_id language =
          Except.error DataError.NotFoundError := by
  intro g encounter_id h
  have hfil : g.encounters.filter (fun e => e.Id == encounter_id) = [] := by
    rw [List.filter_eq_nil_iff]
    intro e he
    simpa using h e he
  refine ⟨?_, ?_, ?_, fun language => ?_⟩
  · unfold generate_chain_of_thought_prompt
    rw [hfil]
    rfl
  · unfold generate_tree_of_thoughts_prompt
    rw [hfil]
    rfl
  · unfold generate_few_shot_prompt
    rw [hfil]
    rfl
  · unfold generate_medical_note_prompt
    rw [hfil]
    rfl

/-- Witness for C1: the id `zzz` matches no encounter of the demo store,
and all four generators fail on it. -/
theorem generators_error_on_unknown_encounter_witness :
    generate_chain_of_thought_prompt demoStore "zzz" =
        Except.error DataError.NotFoundError ∧
      generate_medical_note_prompt demoStore "zzz" "English" =
        Except.error DataError.NotFoundError :=
  ⟨(generators_error_on_unknown_encounter demoStore "zzz" (by decide)).1,
   (generators_error_on_unknown_encounter demoStore "zzz" (by decide)).2.2.2 "English"⟩

/-- C2: in the selections used by the medical-note generator at a time `T`
(instantiated with the encounter start), a time-windowed row of the
patient is kept iff its start is at most `T` and its stop is absent or at
least `T`; in particular a row starting exactly at `T`, or stopping
exactly at `T`, is kept. -/
theorem active_at_encounter_start :
    ∀ (g : SyntheaPromptGenerator) (patient_id : String) (T : Date),
      (∀ row : Condition, row ∈ g.conditions →
        (row ∈ encounter_conditions g patient_id T ↔
          row.PATIENT = patient_id ∧ Date.le row.START T ∧
            (row.STOP = none ∨ ∃ st, row.STOP = some st ∧ Date.le T st))) ∧
      (∀ row : Medication, row ∈ g.medications →
        (row ∈ encounter_medications g patient_id T ↔
          row.PATIENT = patient_id ∧ Date.le row.START T ∧
            (row.STOP = none ∨ ∃ st, row.STOP = some st ∧ Date.le T st))) ∧
      (∀ row : CarePlan, row ∈ g.careplans →
        (row ∈ ongoing_careplans g patient_id T ↔
          row.PATIENT = patient_id ∧ Date.le row.START T ∧
            (row.STOP = none ∨ ∃ st, row.STOP = some st ∧ Date.le T st))) ∧
      (∀ row : Condition, row ∈ g.conditions → row.PATIENT = patient_id →
        row.START = T → (row.STOP = none ∨ row.STOP = some T) →
        row ∈ encounter_conditions g patient_id T) ∧
      (∀ row : Condition, row ∈ g.conditions → row.PATIENT = patient_id →
        Date.le row.START T → row.STOP = some T →
        row ∈ encounter_conditions g patient_id T) := by
  intro g patient_id T
  have hc : ∀ row : Condition, row ∈ g.conditions →
      (row ∈ encounter_conditions g patient_id T ↔
        row.PATIENT = patient_id ∧ Date.le row.START T ∧
          (row.STOP = none ∨ ∃ st, row.STOP = some st ∧ Date.le T st)) := by
    intro row hrow
    rw [encounter_conditions, List.mem_filter]
    simp [hrow, Date.ble_iff, stop_guard_iff, and_assoc]
  refine ⟨hc, ?_, ?_, ?_, ?_⟩
  · intro row hrow
    rw [encounter_medications, List.mem_filter]
    simp [hrow, Date.ble_iff, stop_guard_iff, and_assoc]
  · intro row hrow
    rw [ongoing_careplans, List.mem_filter]
    simp [hrow, Date.ble_iff, stop_guard_iff, and_assoc]
  · intro row hrow hpat hstart hstop
    refine (hc row hrow).mpr ⟨hpat, ?_, ?_⟩
    · rw [hstart]
      exact Date.le_refl T
    · rcases hstop with h | h
      · exact Or.inl h
      · exact Or.inr ⟨T, h, Date.le_refl T⟩
  · intro row hrow hpat hle hstop
    exact (hc row hrow).mpr ⟨hpat, hle, Or.inr ⟨T, hstop, Date.le_refl T⟩⟩

/-- Witness for C2: in the demo store, the condition starting exactly at
the encounter start 2020-01-01 and the condition stopping exactly then
are both kept by the selection. -/
theorem active_at_encounter_start_witness :
    demoC1 ∈ encounter_conditions demoStore "p1" ⟨2020, 1, 1⟩ ∧
      demoC2 ∈ encounter_conditions demoStore "p1" ⟨2020, 1, 1⟩ :=
  ⟨(active_at_encounter_start demoStore "p1" ⟨2020, 1, 1⟩).2.2.2.1 demoC1
      (by decide) rfl rfl (Or.inl rfl),
   (active_at_encounter_start demoStore "p1" ⟨2020, 1, 1⟩).2.2.2.2 demoC2
      (by decide) rfl (Or.inl (by decide)) rfl⟩

/-- C3: the conditions, medications and careplans lists returned by
`get_patient_history` have exactly as many entries as the source tables
have rows for that patient id, with no time-window filter applied. -/
theorem history_lists_full :
    ∀ (g : SyntheaPromptGenerator) (patient_id encounter_id : String)
      (h : PatientHistory),
      get_patient_history g patient_id encounter_id = Except.ok h →
      h.conditions.length =
          (g.conditions.filter (fun c => c.PATIENT == patient_id)).length ∧
        h.medications.length =
          (g.medications.filter (fun m => m.PATIENT == patient_id)).length ∧
        h.careplans.length =
          (g.careplans.filter (fun c => c.PATIENT == patient_id)).length := by
  intro g patient_id encounter_id h hok
  unfold get_patient_history at hok
  cases hp : iloc0 (g.patients.filter (fun p => p.Id == patient_id)) with
  | error err =>
    rw [hp, except_bind_error] at hok
    exact Except.noConfusion hok
  | ok patient =>
    rw [hp, except_bind_ok] at hok
    cases he : iloc0 (g.encounters.filter (fun e => e.Id == encounter_id)) with
    | error err =>
      rw [he, except_bind_error] at hok
      exact Except.noConfusion hok
    | ok encounter =>
      rw [he, except_bind_ok, except_pure_eq] at hok
      injection hok with hok
      subst hok
      refine ⟨?_, ?_, ?_⟩ <;> simp

/-- Witness for C3: `get_patient_history` on the demo store returns lists
of the full per-patient row counts. -/
theorem history_lists_full_witness :
    (⟨⟨20, "F", "white", "nonhispanic"⟩, ["Body Height: 170 "],
        ["Hypertension", "Flu"], ["Aspirin"], ["Diet"],
        ["Checkup", "Visit"]⟩ : PatientHistory).conditions.length =
      (demoStore.conditions.filter (fun c => c.PATIENT == "p1")).length :=
  (history_lists_full demoStore "p1" "e1"
    ⟨⟨20, "F", "white", "nonhispanic"⟩, ["Body Height: 170 "],
      ["Hypertension", "Flu"], ["Aspirin"], ["Diet"],
      ["Checkup", "Visit"]⟩ rfl).1

/-- C5: whenever patient and encounter both resolve, the age in the
aggregated history is the encounter start year minus the birth-date year,
by pure calendar-year subtraction. -/
theorem age_calendar_year :
    ∀ (g : SyntheaPromptGenerator) (patient_id encounter_id : String)
      (p : Patient) (e : Encounter) (h : PatientHistory),
      iloc0 (g.patients.filter (fun x => x.Id == patient_id)) = Except.ok p →
      iloc0 (g.encounters.filter (fun x => x.Id == encounter_id)) = Except.ok e →
      get_patient_history g patient_id encounter_id = Except.ok h →
      h.demographics.age = (e.START.year : Int) - (p.BIRTHDATE.year : Int) := by
  intro g patient_id encounter_id p e h hp he hok
  unfold get_patient_history at hok
  rw [hp, except_bind_ok, he, except_bind_ok, except_pure_eq] at hok
  injection hok with hok
  subst hok
  rfl

/-- Witness for C5: a patient born 2000-12-31 with an encounter starting
2020-01-01 is aggregated with age 20 (not 19). -/
theorem age_calendar_year_witness :
    ∃ h : PatientHistory,
      get_patient_history demoStore "p1" "e1" = Except.ok h ∧
        h.demographics.age = (demoE1.START.year : Int) - (demoP1.BIRTHDATE.year : Int) ∧
        h.demographics.age = 20 := by
  refine ⟨⟨⟨20, "F", "white", "nonhispanic"⟩, ["Body Height: 170 "],
    ["Hypertension", "Flu"], ["Aspirin"], ["Diet"],
    ["Checkup", "Visit"]⟩, rfl, ?_, rfl⟩
  exact age_calendar_year demoStore "p1" "e1" demoP1 demoE1 _ rfl rfl rfl

/-- C10: `get_patient_history` performs no consistency check between its
arguments: whenever the patient id and encounter id each resolve, the call
succeeds even if the encounter belongs to a different patient, and the age
is computed from that unrelated encounter's start year. -/
theorem no_patient_encounter_consistency_check :
    ∀ (g : SyntheaPromptGenerator) (patient_id encounter_id : String)
      (p : Patient) (e : Encounter),
      iloc0 (g.patients.filter (fun x => x.Id == patient_id)) = Except.ok p →
      iloc0 (g.encounters.filter (fun x => x.Id == encounter_id)) = Except.ok e →
      e.PATIENT ≠ patient_id →
      ∃ h : PatientHistory,
        get_patient_history g patient_id encounter_id = Except.ok h ∧
          h.demographics.age = (e.START.year : Int) - (p.BIRTHDATE.year : Int) := by
  intro g patient_id encounter_id p e hp he _
  refine ⟨⟨⟨(e.START.year : Int) - (p.BIRTHDATE.year : Int),
      p.GENDER, p.RACE, p.ETHNICITY⟩,
    _process_observations (g.observations.filter
      (fun o => o.PATIENT == patient_id && o.ENCOUNTER == encounter_id)),
    (g.conditions.filter
      (fun c => c.PATIENT == patient_id)).map (fun c => c.DESCRIPTION),
    (g.medications.filter
      (fun m => m.PATIENT == patient_id)).map (fun m => m.DESCRIPTION),
    (g.careplans.filter
      (fun c => c.PATIENT == patient_id)).map (fun c => c.DESCRIPTION),
    (g.encounters.filter
      (fun x => x.PATIENT == patient_id)).map (fun x => x.DESCRIPTION)⟩, ?_, rfl⟩
  unfold get_patient_history
  rw [hp, except_bind_ok, he, except_bind_ok, except_pure_eq]

/-- Witness for C10: encounter `e3` belongs to `p2`, yet the call with
patient `p1` succeeds and takes the age from the start year of `e3`. -/
theorem no_patient_encounter_consistency_check_witness :
    demoE3.PATIENT ≠ "p1" ∧
      ∃ h : PatientHistory,
        get_patient_history demoStore "p1" "e3" = Except.ok h ∧
          h.demographics.age =
            (demoE3.START.year : Int) - (demoP1.BIRTHDATE.year : Int) :=
  ⟨by decide,
   no_patient_encounter_consistency_check demoStore "p1" "e3" demoP1 demoE3
     rfl rfl (by decide)⟩

/-- C8: when the resolved encounter has no reason description, the
medical-note generator renders the REASON FOR VISIT section exactly as
`Not provided`; when the field is present its value is rendered instead. -/
theorem reason_for_visit_default :
    ∀ (g : SyntheaPromptGenerator) (encounter_id language : String)
      (e : Encounter) (out : String),
      iloc0 (g.encounters.filter (fun x => x.Id == encounter_id)) = Except.ok e →
      generate_medical_note_prompt g encounter_id language = Except.ok out →
      (e.REASONDESCRIPTION = none →
        ∃ pre post,
          out = pre ++ "REASON FOR VISIT\nNot provided\n\nACTIVE CONDITIONS\n" ++ post) ∧
      (∀ r : String, e.REASONDESCRIPTION = some r →
        ∃ pre post,
          out = pre ++ "REASON FOR VISIT\n" ++ r ++ "\n\nACTIVE CONDITIONS\n" ++ post) := by
  intro g encounter_id language e out he hok
  unfold generate_medical_note_prompt at hok
  rw [he, except_bind_ok] at hok
  cases hp : iloc0 (g.patients.filter (fun x => x.Id == e.PATIENT)) with
  | error err =>
    simp only [hp, except_bind_error] at hok
    exact Except.noConfusion hok
  | ok p =>
    simp only [hp, except_bind_ok, except_pure_eq, Except.ok.injEq] at hok
    subst hok
    constructor
    · intro hr
      rw [hr]
      refine ⟨"Task: Simplify this medical note for the patient.\n\nOriginal Note:\n"
          ++ ("MEDICAL NOTE\nDate: " ++ Date.strftimeYmd e.START
            ++ "\nVisit Type: " ++ e.DESCRIPTION
            ++ "\n\nPATIENT DEMOGRAPHICS\nAge: "
            ++ toString ((e.START.year : Int) - (p.BIRTHDATE.year : Int))
            ++ "\nGender: " ++ p.GENDER ++ "\n\n"),
        _format_list "" ((encounter_conditions g e.PATIENT e.START).map
            (fun c => c.DESCRIPTION))
          ++ "\n\nCURRENT MEDICATIONS\n"
          ++ _format_list "" ((encounter_medications g e.PATIENT e.START).map
            (fun m => m.DESCRIPTION))
          ++ "\n\nONGOING CAREPLANS\n"
          ++ _format_list "" ((ongoing_careplans g e.PATIENT e.START).map
            (fun c => c.DESCRIPTION))
          ++ "\n\nNEW CAREPLANS\n"
          ++ _format_list "" ((encounter_careplans g e.PATIENT encounter_id).map
            (fun c => c.DESCRIPTION))
          ++ "\n"
          ++ "\n\nPlease follow these guidelines for the simplified note:\n- Write the note in "
          ++ language
          ++ "\n- Tailor the note to their age\n- Use appropriate language for the audience\n- Maintain all important medical information\n- Explain medical terms when needed\n- Include any important instructions or follow-up steps\n", ?_⟩
      simp only [String.append_assoc]
      rfl
    · intro r hr
      rw [hr]
      refine ⟨"Task: Simplify this medical note for the patient.\n\nOriginal Note:\n"
          ++ ("MEDICAL NOTE\nDate: " ++ Date.strftimeYmd e.START
            ++ "\nVisit Type: " ++ e.DESCRIPTION
            ++ "\n\nPATIENT DEMOGRAPHICS\nAge: "
            ++ toString ((e.START.year : Int) - (p.BIRTHDATE.year : Int))
            ++ "\nGender: " ++ p.GENDER ++ "\n\n"),
        _format_list "" ((encounter_conditions g e.PATIENT e.START).map
            (fun c => c.DESCRIPTION))
          ++ "\n\nCURRENT MEDICATIONS\n"
          ++ _format_list "" ((encounter_medications g e.PATIENT e.START).map
            (fun m => m.DESCRIPTION))
          ++ "\n\nONGOING CAREPLANS\n"
          ++ _format_list "" ((ongoing_careplans g e.PATIENT e.START).map
            (fun c => c.DESCRIPTION))
          ++ "\n\nNEW CAREPLANS\n"
          ++ _format_list "" ((encounter_careplans g e.PATIENT encounter_id).map
            (fun c => c.DESCRIPTION))
          ++ "\n"
          ++ "\n\nPlease follow these guidelines for the simplified note:\n- Write the note in "
          ++ language
          ++ "\n- Tailor the note to their age\n- Use appropriate language for the audience\n- Maintain all important medical information\n- Explain medical terms when needed\n- Include any important instructions or follow-up steps\n", ?_⟩
      simp only [String.append_assoc]
      rfl

/-- Witness for C8: encounter `e1` of the demo store has no reason
description and its note reads `REASON FOR VISIT` then `Not provided`. -/
theorem reason_for_visit_default_witness :
    ∃ out, generate_medical_note_prompt demoStore "e1" "English" = Except.ok out ∧
      ∃ pre post,
        out = pre ++ "REASON FOR VISIT\nNot provided\n\nACTIVE CONDITIONS\n" ++ post := by
  have hex : ∃ out,
      generate_medical_note_prompt demoStore "e1" "English" = Except.ok out := ⟨_, rfl⟩
  obtain ⟨out, hok⟩ := hex
  exact ⟨out, hok,
    (reason_for_visit_default demoStore "e1" "English" demoE1 out rfl hok).1 rfl⟩

/-- C9: every successful few-shot prompt starts with the byte-identical
fixed exemplar block, and the target-case block after it varies with the
input encounter (two demo encounters yield different target blocks). -/
theorem few_shot_exemplar_constant :
    (∀ (g : SyntheaPromptGenerator) (encounter_id : String) (out : String),
      generate_few_shot_prompt g encounter_id = Except.ok out →
      ∃ t : String, out = fewShotExemplar ++ t) ∧
    (∃ t1 t2 : String,
      generate_few_shot_prompt demoStore "e1" = Except.ok (fewShotExemplar ++ t1) ∧
      generate_few_shot_prompt demoStore "e2" = Except.ok (fewShotExemplar ++ t2) ∧
      t1 ≠ t2) := by
  constructor
  · intro g encounter_id out hok
    unfold generate_few_shot_prompt at hok
    cases he : iloc0 (g.encounters.filter (fun x => x.Id == encounter_id)) with
    | error err =>
      rw [he, except_bind_error] at hok
      exact Except.noConfusion hok
    | ok e =>
      rw [he, except_bind_ok] at hok
      cases hh : get_patient_history g e.PATIENT encounter_id with
      | error err =>
        rw [hh, except_bind_error] at hok
        exact Except.noConfusion hok
      | ok th =>
        rw [hh, except_bind_ok, except_pure_eq] at hok
        injection hok with hok
        exact ⟨_, hok.symm⟩
  · refine ⟨_, _, rfl, rfl, by decide⟩

/-- Witness for C9: the prefix property applied at the demo store. -/
theorem few_shot_exemplar_constant_witness :
    ∃ out t, generate_few_shot_prompt demoStore "e1" = Except.ok out ∧
      out = fewShotExemplar ++ t := by
  have hex : ∃ out,
      generate_few_shot_prompt demoStore "e1" = Except.ok out := ⟨_, rfl⟩
  obtain ⟨out, hok⟩ := hex
  obtain ⟨t, ht⟩ := few_shot_exemplar_constant.1 demoStore "e1" out hok
  exact ⟨out, t, hok, ht⟩

end Synthea
